import Mathlib

/-!
Shallow embedding of the `linestyle` hand-drawn-stroke renderer
(`src/linestyle/strokes.py`, `src/linestyle/plot.py`, `examples/make_gallery.py`).

Numbers are modelled as rationals.  The transcendental functions of the Python
`math` module (`sin`, `cos`, `pi`, `hypot`) appear only as an abstract bundle
`MathOps`: every claim below is about the *structure* of the computation
(which random draws feed which sample, exact cancellations such as a zero
taper factor or a zero-length normal), never about values of `sin`, so the
embedding is parametric in them.  The single analytic fact the code relies on,
`math.hypot(0, 0) == 0`, is carried as a field of the bundle.

`numpy.random.default_rng(seed)` is modelled as an abstract family of streams
`SeedStreams : ℤ → ℕ → ℚ`, giving for each seed the sequence of unit-interval
draws; `Generator.uniform(lo, hi)` consumes one draw and rescales it.
Python operations that raise (`ZeroDivisionError` from `i / (n - 1)` when
`n == 1`, `IndexError` from `pts[0]` when `n == 0`, `ZeroDivisionError`
inside `PlotBox.xy` on a degenerate box) are modelled with `Option`.
-/

namespace Linestyle

/-- A point, `(x, y)`, as in `strokes.py`'s `Point = Tuple[float, float]`. -/
abbrev Point : Type := ℚ × ℚ

/-- Abstract bundle for the `math`-module functions used by the code.
`hypot_zero` records the one fact the code relies on: `math.hypot(0,0) = 0`. -/
structure MathOps : Type where
  sin : ℚ → ℚ
  cos : ℚ → ℚ
  pi : ℚ
  hypot : ℚ → ℚ → ℚ
  hypot_zero : hypot 0 0 = 0

/-- Model of `numpy.random.default_rng`: each integer seed determines the
infinite sequence of unit-interval uniform draws of that generator. -/
abbrev SeedStreams : Type := ℤ → ℕ → ℚ

/-- A generator state: its seed-determined draw sequence and the position of
the next draw. -/
structure Rng : Type where
  u : ℕ → ℚ
  pos : ℕ

/-- `Generator.uniform(low, high)`: consume one unit draw, rescale it. -/
def Rng.uniform (r : Rng) (lo hi : ℚ) : ℚ × Rng :=
  (lo + (hi - lo) * r.u r.pos, ⟨r.u, r.pos + 1⟩)

/-- `StrokeStyle` from `strokes.py` (frozen dataclass). -/
structure StrokeStyle : Type where
  width : ℚ
  amp : ℚ
  waves : ℚ
  taper : ℚ
  color : String
  linecap : String
  linejoin : String

/-- `_unit(vx, vy)`: normalize, guarding the zero vector. -/
def unit (M : MathOps) (vx vy : ℚ) : ℚ × ℚ :=
  let n := M.hypot vx vy
  if n = 0 then (0, 0) else (vx / n, vy / n)

/-- `_normal(p0, p1)`: unit direction rotated +90°. -/
def normal (M : MathOps) (p0 p1 : Point) : ℚ × ℚ :=
  let dx := p1.1 - p0.1
  let dy := p1.2 - p0.2
  let uv := unit M dx dy
  (-uv.2, uv.1)

/-- `_taper_k(t, taper)`: 1 when `taper ≤ 0`, else a linear ramp
`min 1 (min t (1-t) / taper)`. -/
def taper_k (t taper : ℚ) : ℚ :=
  if taper ≤ 0 then 1 else min 1 (min t (1 - t) / taper)

/-- `_smooth_offset(t, rng, waves)`: draws `phase ~ uniform(0, 2π)` and
`a2 ~ uniform(-0.10, 0.10)` from the generator (two draws per call), then
returns the two-harmonic value together with the advanced generator. -/
def smooth_offset (M : MathOps) (t : ℚ) (r : Rng) (waves : ℚ) : ℚ × Rng :=
  let pr := r.uniform 0 (2 * M.pi)
  let ar := pr.2.uniform (-(10/100)) (10/100)
  (M.sin (2 * M.pi * waves * t + pr.1)
    + ar.1 * M.sin (2 * M.pi * (2 * waves) * t + (7/10) * pr.1), ar.2)

/-- Body of the sampling loop of `stroke_line` at index `i`, for a stroke of
`n` samples.  Each `_smooth_offset` call consumes exactly two uniforms, so
the call made at iteration `i` reads the stream at positions `base + 2i` and
`base + 2i + 1` (`base = 0` for `stroke_line`, whose generator is fresh;
`base = 2` for `stroke_line_dashed`, whose generator has already produced the
dash and gap draws). -/
def stroke_point (M : MathOps) (u : ℕ → ℚ) (base : ℕ) (p0 p1 : Point)
    (st : StrokeStyle) (nx ny : ℚ) (n i : ℕ) : Point :=
  let t : ℚ := (i : ℚ) / ((n : ℚ) - 1)
  let bx := p0.1 + (p1.1 - p0.1) * t
  let bby := p0.2 + (p1.2 - p0.2) * t
  let k := taper_k t st.taper
  let off := st.amp * k * (smooth_offset M t ⟨u, base + 2 * i⟩ st.waves).1
  (bx + nx * off, bby + ny * off)

/-- One iteration of the sampling loop as run by Python: the division
`i / (n - 1)` raises `ZeroDivisionError` when `n = 1`. -/
def stroke_sample (M : MathOps) (u : ℕ → ℚ) (base : ℕ) (p0 p1 : Point)
    (st : StrokeStyle) (nx ny : ℚ) (n i : ℕ) : Option Point :=
  if (n : ℚ) - 1 = 0 then none
  else some (stroke_point M u base p0 p1 st nx ny n i)

/-- `stroke_line(dwg, p0, p1, style, seed, n)`, modelled as the point sequence
it pushes into the SVG path.  `none` models a raised exception: `n = 1` raises
`ZeroDivisionError` in the loop and `n = 0` raises `IndexError` at
`pts[0]`. -/
def stroke_line (M : MathOps) (sd : SeedStreams) (p0 p1 : Point)
    (st : StrokeStyle) (seed : ℤ) (n : ℕ) : Option (List Point) :=
  let u := sd seed
  let nv := normal M p0 p1
  match (List.range n).mapM (stroke_sample M u 0 p0 p1 st nv.1 nv.2 n) with
  | none => none
  | some pts => if pts.isEmpty then none else some pts

/-- The observable output of `stroke_line_dashed`: dash length, gap length,
perturbed point sequence, and the `stroke-dashoffset` attribute value. -/
structure DashedStroke : Type where
  dash : ℚ
  gap : ℚ
  pts : List Point
  dashoffset : ℚ

/-- `stroke_line_dashed(dwg, p0, p1, style, seed, n, dash_base, gap_base)`.
Draw order on the one generator seeded with `seed`: dash jitter (position 0),
gap jitter (position 1), the sampling loop (positions `2 .. 2n + 1`), and the
dash-phase offset (position `2 + 2n`, drawn after the loop).  `none` models a
raised exception, exactly as in `stroke_line`. -/
def stroke_line_dashed (M : MathOps) (sd : SeedStreams) (p0 p1 : Point)
    (st : StrokeStyle) (seed : ℤ) (n : ℕ) (dash_base gap_base : ℚ) :
    Option DashedStroke :=
  let r : Rng := ⟨sd seed, 0⟩
  let dr := r.uniform (85/100) (115/100)
  let dash := dash_base * dr.1
  let gr := dr.2.uniform (85/100) (120/100)
  let gap := gap_base * gr.1
  let nv := normal M p0 p1
  match (List.range n).mapM (stroke_sample M (sd seed) 2 p0 p1 st nv.1 nv.2 n) with
  | none => none
  | some pts =>
    if pts.isEmpty then none
    else
      let orr := (Rng.mk (sd seed) (2 + 2 * n)).uniform 0 (dash + gap)
      some ⟨dash, gap, pts, orr.1⟩

/-- `stroke_polyline(dwg, points, style, seed, n_per_seg)`: one `stroke_line`
per consecutive pair, segment `i` seeded with `seed + i * 97`; fewer than two
points draws nothing. -/
def stroke_polyline (M : MathOps) (sd : SeedStreams) (points : List Point)
    (st : StrokeStyle) (seed : ℤ) (n_per_seg : ℕ) : List (Option (List Point)) :=
  if points.length < 2 then []
  else
    (List.range (points.length - 1)).map fun i =>
      stroke_line M sd (points.getD i (0, 0)) (points.getD (i + 1) (0, 0)) st
        (seed + (i : ℤ) * 97) n_per_seg

/-- The `rot` helper local to `arrow_head_gesture`. -/
def rot (M : MathOps) (vx vy ang : ℚ) : ℚ × ℚ :=
  (vx * M.cos ang - vy * M.sin ang, vx * M.sin ang + vy * M.cos ang)

/-- The `kink_point` helper local to `arrow_head_gesture`: a point at random
parametric position `uniform(0.70, 0.85)` along `p0 → tip`, displaced along
the perpendicular by `uniform(-k, k)`; consumes two draws (`kk` first). -/
def kink_point (M : MathOps) (p0 tip : Point) (k : ℚ) (r : Rng) : Point × Rng :=
  let vx := tip.1 - p0.1
  let vy := tip.2 - p0.2
  let uv := unit M vx vy
  let nx := -uv.2
  let ny := uv.1
  let kr := r.uniform (-k) k
  let tr := kr.2.uniform (70/100) (85/100)
  let bx := p0.1 + (tip.1 - p0.1) * tr.1
  let bby := p0.2 + (tip.2 - p0.2) * tr.1
  ((bx + nx * kr.1, bby + ny * kr.1), tr.2)

/-- `arrow_head_gesture(dwg, tip, direction, style, seed, size, open_angle_deg)`:
the four wing strokes it emits (left base→kink, left kink→tip, right
base→kink, right kink→tip).  `math.radians(x)` is `x * π / 180`. -/
def arrow_head_gesture (M : MathOps) (sd : SeedStreams) (tip direction : Point)
    (st : StrokeStyle) (seed : ℤ) (size open_angle_deg : ℚ) :
    List (Option (List Point)) :=
  let r : Rng := ⟨sd seed, 0⟩
  let duv := unit M direction.1 direction.2
  let jL := r.uniform (-9) 9
  let angL := (open_angle_deg + jL.1) * M.pi / 180
  let jR := jL.2.uniform (-12) 12
  let angR := (open_angle_deg + jR.1) * M.pi / 180
  let sL := jR.2.uniform (85/100) (115/100)
  let sizeL := size * sL.1
  let sR := sL.2.uniform (75/100) (120/100)
  let sizeR := size * sR.1
  let lv := rot M duv.1 duv.2 angL
  let rv := rot M duv.1 duv.2 (-angR)
  let pL0 : Point := (tip.1 - lv.1 * sizeL, tip.2 - lv.2 * sizeL)
  let pR0 : Point := (tip.1 - rv.1 * sizeR, tip.2 - rv.2 * sizeR)
  let kL := kink_point M pL0 tip 2 sR.2
  let kR := kink_point M pR0 tip (25/10) kL.2
  [stroke_line M sd pL0 kL.1 st (seed + 111) 14,
   stroke_line M sd kL.1 tip st (seed + 112) 10,
   stroke_line M sd pR0 kR.1 st (seed + 211) 14,
   stroke_line M sd kR.1 tip st (seed + 212) 10]

/-- Body of the `ticks_on_axis` loop at parametric position `t`: a short
stroke centered on the axis point at `t`, perpendicular to the axis, half
`tick_len` on each side, drawn with `n = 12`. -/
def tick_stroke (M : MathOps) (sd : SeedStreams) (axis_p0 axis_p1 : Point)
    (t tick_len : ℚ) (st : StrokeStyle) (seed : ℤ) : Option (List Point) :=
  let nv := normal M axis_p0 axis_p1
  let x := axis_p0.1 + (axis_p1.1 - axis_p0.1) * t
  let y := axis_p0.2 + (axis_p1.2 - axis_p0.2) * t
  let a : Point := (x - nv.1 * tick_len / 2, y - nv.2 * tick_len / 2)
  let b : Point := (x + nv.1 * tick_len / 2, y + nv.2 * tick_len / 2)
  stroke_line M sd a b st seed 12

/-- `ticks_on_axis(dwg, axis_p0, axis_p1, tick_positions_t, tick_len, style,
seed)`: one tick stroke per listed position, the `i`-th seeded with
`seed + i * 31` (`enumerate`). -/
def ticks_on_axis (M : MathOps) (sd : SeedStreams) (axis_p0 axis_p1 : Point)
    (tick_positions_t : List ℚ) (tick_len : ℚ) (st : StrokeStyle) (seed : ℤ) :
    List (Option (List Point)) :=
  tick_positions_t.enum.map fun p =>
    tick_stroke M sd axis_p0 axis_p1 p.2 tick_len st (seed + (p.1 : ℤ) * 31)

/-- `PlotBox` from `plot.py` (frozen dataclass). -/
structure PlotBox : Type where
  x0 : ℚ
  y0 : ℚ
  w : ℚ
  h : ℚ
  xmin : ℚ
  xmax : ℚ
  ymin : ℚ
  ymax : ℚ

/-- The affine map of `PlotBox.xy`, in the non-degenerate case. -/
def PlotBox.xyVal (b : PlotBox) (x y : ℚ) : Point :=
  let u := (x - b.xmin) / (b.xmax - b.xmin)
  let v := (y - b.ymin) / (b.ymax - b.ymin)
  (b.x0 + u * b.w, b.y0 + (1 - v) * b.h)

/-- `PlotBox.xy(x, y)`: the two divisions are unguarded in the source, so the
call raises `ZeroDivisionError` (modelled as `none`) whenever
`xmax - xmin = 0` or `ymax - ymin = 0`. -/
def PlotBox.xy (b : PlotBox) (x y : ℚ) : Option Point :=
  if b.xmax - b.xmin = 0 ∨ b.ymax - b.ymin = 0 then none
  else some (b.xyVal x y)

/-- Body of the `sample_func` loop at index `i` (non-degenerate case). -/
def sample_point (b : PlotBox) (f : ℚ → ℚ) (n i : ℕ) : Point :=
  let t : ℚ := (i : ℚ) / ((n : ℚ) - 1)
  let x := b.xmin + (b.xmax - b.xmin) * t
  b.xyVal x (f x)

/-- `sample_func(box, f, n)`: evaluate `f` at `n` evenly spaced abscissas and
map through the box.  As in Python, `n = 1` divides by zero (`none`) and a
degenerate box makes `box.xy` raise; `n = 0` yields the empty list. -/
def sample_func (b : PlotBox) (f : ℚ → ℚ) (n : ℕ) : Option (List Point) :=
  (List.range n).mapM fun i : ℕ =>
    if (n : ℚ) - 1 = 0 then none
    else
      let t : ℚ := (i : ℚ) / ((n : ℚ) - 1)
      let x := b.xmin + (b.xmax - b.xmin) * t
      b.xy x (f x)

/-- The strokes emitted by one `draw_axes` call: the two axis strokes, the
arrowhead wing strokes of each axis, and the tick strokes of each axis. -/
structure AxesOut : Type where
  xAxis : Option (List Point)
  yAxis : Option (List Point)
  xArrow : List (Option (List Point))
  yArrow : List (Option (List Point))
  xTicks : List (Option (List Point))
  yTicks : List (Option (List Point))

/-- `draw_axes(dwg, box, axis_style, seed, ticks, arrows)`.  The three
`box.xy` calls may raise (degenerate box), hence the `Option`.  Tick
fractions are `[i / ticks for i in range(1, ticks)]`, drawn on both axes. -/
def draw_axes (M : MathOps) (sd : SeedStreams) (box : PlotBox)
    (st : StrokeStyle) (seed : ℤ) (ticks : ℕ) (arrows : Bool) :
    Option AxesOut :=
  let x_axis_y := box.ymin
  let y_axis_x := box.xmin
  match box.xy y_axis_x x_axis_y, box.xy box.xmax x_axis_y,
      box.xy y_axis_x box.ymax with
  | some origin, some x_end, some y_end =>
    let xAxis := stroke_line M sd origin x_end st (seed + 1) 90
    let yAxis := stroke_line M sd origin y_end st (seed + 2) 90
    let xArrow := if arrows then arrow_head_gesture M sd x_end (1, 0) st (seed + 3) 14 30 else []
    let yArrow := if arrows then arrow_head_gesture M sd y_end (0, -1) st (seed + 4) 14 30 else []
    let ts := if 0 < ticks then (List.range' 1 (ticks - 1)).map (fun i : ℕ => (i : ℚ) / (ticks : ℚ)) else []
    let xTicks := if 0 < ticks then ticks_on_axis M sd origin x_end ts 20 st (seed + 10) else []
    let yTicks := if 0 < ticks then ticks_on_axis M sd origin y_end ts 20 st (seed + 20) else []
    some ⟨xAxis, yAxis, xArrow, yArrow, xTicks, yTicks⟩
  | _, _, _ => none

/-- `draw_curve(dwg, pts, style, seed, n_per_seg)`: thin dispatch to
`stroke_polyline`. -/
def draw_curve (M : MathOps) (sd : SeedStreams) (pts : List Point)
    (st : StrokeStyle) (seed : ℤ) (n_per_seg : ℕ) : List (Option (List Point)) :=
  stroke_polyline M sd pts st seed n_per_seg

/-- The plot box of `examples/make_gallery.py`: `W = H = 900`, margin
`M = 120`, data window `[-1.2, 4.8] × [-2.6, 6.4]`. -/
def BOXg : PlotBox :=
  ⟨120, 120, 900 - 2 * 120, 900 - 2 * 120, -(12/10), 48/10, -(26/10), 64/10⟩

/-- `data_style` of `examples/make_gallery.py`. -/
def data_style : StrokeStyle :=
  ⟨22/10, 55/100, 75/100, 10/100, "#111", "round", "round"⟩

/-- The shifted parabola of the gallery: `0.35 * (x - 1.6) * (x - 1.6) - 1.3`. -/
def fParabola (x : ℚ) : ℚ :=
  35/100 * (x - 16/10) * (x - 16/10) - 13/10

/-- A concrete interpretation of the `math` bundle, used to evaluate the
embedding at explicit inputs. -/
def mathEx : MathOps where
  sin := fun x => x
  cos := fun _ => 1
  pi := 3
  hypot := fun a b => a * a + b * b
  hypot_zero := by norm_num

/-- A concrete seed-stream family, used to evaluate the embedding at explicit
inputs: seed `s` yields the draws `0, 1/10, 2/10, …`. -/
def sdEx : SeedStreams := fun _ k => (k : ℚ) / 10

/-- A style with full amplitude and no taper, used for explicit inputs. -/
def styleC1 : StrokeStyle := ⟨22/10, 1, 1, 0, "#111", "round", "round"⟩

/-- The drift rule exactly as the claim states it: one `(phase, a2)` pair
drawn at the start of the stroke from the stream (positions 0 and 1), reused
at every sample index. -/
def spec_single_pair_points (M : MathOps) (u : ℕ → ℚ) (p0 p1 : Point)
    (st : StrokeStyle) (n : ℕ) : List Point :=
  let phase := 0 + (2 * M.pi - 0) * u 0
  let a2 := -(10/100) + (10/100 - -(10/100)) * u 1
  let nv := normal M p0 p1
  (List.range n).map fun i =>
    let t : ℚ := (i : ℚ) / ((n : ℚ) - 1)
    let offt := M.sin (2 * M.pi * st.waves * t + phase)
      + a2 * M.sin (2 * M.pi * (2 * st.waves) * t + (7/10) * phase)
    let k := taper_k t st.taper
    let off := st.amp * k * offt
    (p0.1 + (p1.1 - p0.1) * t + nv.1 * off, p0.2 + (p1.2 - p0.2) * t + nv.2 * off)

/-! ## Helper lemmas -/

theorem mapM_eq_map_of_some {α β : Type} (f : α → Option β) (g : α → β)
    (l : List α) (h : ∀ a ∈ l, f a = some (g a)) :
    l.mapM f = some (l.map g) := by
  induction l with
  | nil => rfl
  | cons a l ih =>
    rw [List.mapM_cons, h a (List.mem_cons_self a l),
      ih fun x hx => h x (List.mem_cons_of_mem a hx)]
    rfl

theorem cast_sub_one_ne_zero {n : ℕ} (hn : 2 ≤ n) : ((n : ℚ) - 1) ≠ 0 := by
  have h : (2 : ℚ) ≤ (n : ℚ) := by exact_mod_cast hn
  intro h0
  have : (n : ℚ) = 1 := by linarith
  linarith

theorem stroke_samples_eq_map (M : MathOps) (u : ℕ → ℚ) (base : ℕ)
    (p0 p1 : Point) (st : StrokeStyle) (nx ny : ℚ) (n : ℕ)
    (hq : ((n : ℚ) - 1) ≠ 0) :
    (List.range n).mapM (stroke_sample M u base p0 p1 st nx ny n) =
      some ((List.range n).map (stroke_point M u base p0 p1 st nx ny n)) :=
  mapM_eq_map_of_some _ _ _ fun i _ => by simp [stroke_sample, hq]

theorem stroke_line_eq_map (M : MathOps) (sd : SeedStreams) (p0 p1 : Point)
    (st : StrokeStyle) (seed : ℤ) (n : ℕ) (hn : 2 ≤ n) :
    stroke_line M sd p0 p1 st seed n =
      some ((List.range n).map
        (stroke_point M (sd seed) 0 p0 p1 st (normal M p0 p1).1
          (normal M p0 p1).2 n)) := by
  have hq := cast_sub_one_ne_zero hn
  have hne : ¬ ((List.range n).map
      (stroke_point M (sd seed) 0 p0 p1 st (normal M p0 p1).1
        (normal M p0 p1).2 n)).isEmpty = true := by
    simp [List.isEmpty_iff, List.range_eq_nil]
    omega
  rw [stroke_line, stroke_samples_eq_map M (sd seed) 0 p0 p1 st _ _ n hq]
  simp [hne]

theorem stroke_point_zero (M : MathOps) (u : ℕ → ℚ) (base : ℕ)
    (p0 p1 : Point) (st : StrokeStyle) (nx ny : ℚ) (n : ℕ)
    (ht : 0 < st.taper) :
    stroke_point M u base p0 p1 st nx ny n 0 = p0 := by
  have hk : taper_k 0 st.taper = 0 := by
    rw [taper_k, if_neg (not_le.mpr ht)]
    rw [min_eq_left (by norm_num : (0 : ℚ) ≤ 1 - 0), zero_div]
    exact min_eq_right (by norm_num)
  simp [stroke_point, hk]

theorem stroke_point_last (M : MathOps) (u : ℕ → ℚ) (base : ℕ)
    (p0 p1 : Point) (st : StrokeStyle) (nx ny : ℚ) (n : ℕ)
    (hn : 2 ≤ n) (ht : 0 < st.taper) :
    stroke_point M u base p0 p1 st nx ny n (n - 1) = p1 := by
  have hq := cast_sub_one_ne_zero hn
  have htc : (((n - 1 : ℕ) : ℚ)) / ((n : ℚ) - 1) = 1 := by
    rw [Nat.cast_sub (by omega : 1 ≤ n), Nat.cast_one, div_self hq]
  have hk : taper_k 1 st.taper = 0 := by
    rw [taper_k, if_neg (not_le.mpr ht)]
    rw [min_eq_right (by norm_num : (1 : ℚ) - 1 ≤ 1), sub_self, zero_div]
    exact min_eq_right (by norm_num)
  rw [stroke_point]
  simp only [htc, hk]
  ring_nf

theorem stroke_line_one_eq_none (M : MathOps) (sd : SeedStreams)
    (p0 p1 : Point) (st : StrokeStyle) (seed : ℤ) :
    stroke_line M sd p0 p1 st seed 1 = none := by
  have h : stroke_sample M (sd seed) 0 p0 p1 st (normal M p0 p1).1
      (normal M p0 p1).2 1 0 = none := by
    rw [stroke_sample, if_pos (by norm_num)]
  simp only [stroke_line]
  rw [show List.range 1 = [0] by simp [List.range_succ], List.mapM_cons, h]
  rfl

/-! ## Claims -/

/-- C2: `stroke_line` is a deterministic function of `(p0, p1, style, seed, n)`:
two invocations whose seed resolves to the same noise stream (the noise-source
contract for equal seeds) produce identical point sequences; there is no other
state. -/
theorem stroke_line_deterministic (M : MathOps) (sd1 sd2 : SeedStreams)
    (p0 p1 : Point) (st : StrokeStyle) (seed : ℤ) (n : ℕ)
    (hsd : sd1 seed = sd2 seed) :
    stroke_line M sd1 p0 p1 st seed n = stroke_line M sd2 p0 p1 st seed n := by
  rw [stroke_line, stroke_line, hsd]

theorem stroke_line_deterministic_witness :
    stroke_line mathEx sdEx (0, 0) (3, 4) styleC1 7 5 =
      stroke_line mathEx sdEx (0, 0) (3, 4) styleC1 7 5 :=
  stroke_line_deterministic mathEx sdEx sdEx (0, 0) (3, 4) styleC1 7 5 rfl

/-- C6: on a valid box the corner `(xmin, ymin)` maps exactly to the device
point `(x0, y0 + h)` and `(xmax, ymax)` maps exactly to `(x0 + w, y0)`:
the data window's origin lands bottom-left because the map inverts y. -/
theorem plotbox_xy_corners (b : PlotBox) (hx : b.xmin < b.xmax)
    (hy : b.ymin < b.ymax) (hw : 0 < b.w) (hh : 0 < b.h) :
    b.xy b.xmin b.ymin = some (b.x0, b.y0 + b.h) ∧
    b.xy b.xmax b.ymax = some (b.x0 + b.w, b.y0) := by
  have hx' : b.xmax - b.xmin ≠ 0 := sub_ne_zero.mpr (ne_of_gt hx)
  have hy' : b.ymax - b.ymin ≠ 0 := sub_ne_zero.mpr (ne_of_gt hy)
  constructor <;>
    · rw [PlotBox.xy, if_neg (by tauto), PlotBox.xyVal]
      simp [sub_self, zero_div, div_self hx', div_self hy']

theorem plotbox_xy_corners_witness :
    BOXg.xmin < BOXg.xmax ∧ BOXg.ymin < BOXg.ymax ∧ 0 < BOXg.w ∧ 0 < BOXg.h ∧
    (BOXg.xy BOXg.xmin BOXg.ymin = some (BOXg.x0, BOXg.y0 + BOXg.h) ∧
      BOXg.xy BOXg.xmax BOXg.ymax = some (BOXg.x0 + BOXg.w, BOXg.y0)) :=
  ⟨by norm_num [BOXg], by norm_num [BOXg], by norm_num [BOXg],
    by norm_num [BOXg],
    plotbox_xy_corners BOXg (by norm_num [BOXg]) (by norm_num [BOXg])
      (by norm_num [BOXg]) (by norm_num [BOXg])⟩

/-- C10: `PlotBox.xy` divides by `xmax - xmin` and `ymax - ymin` without any
validation, so it returns a point exactly when both are nonzero and raises
`ZeroDivisionError` (modelled `none`) whenever `xmax = xmin` or
`ymax = ymin`. -/
theorem plotbox_xy_total_iff (b : PlotBox) (x y : ℚ) :
    (∃ p, b.xy x y = some p) ↔ (b.xmax ≠ b.xmin ∧ b.ymax ≠ b.ymin) := by
  rw [PlotBox.xy]
  constructor
  · rintro ⟨p, hp⟩
    by_cases h : b.xmax - b.xmin = 0 ∨ b.ymax - b.ymin = 0
    · rw [if_pos h] at hp
      exact absurd hp (by simp)
    · push_neg at h
      exact ⟨sub_ne_zero.mp h.1, sub_ne_zero.mp h.2⟩
  · rintro ⟨h1, h2⟩
    rw [if_neg]
    · exact ⟨_, rfl⟩
    · push_neg
      exact ⟨sub_ne_zero.mpr h1, sub_ne_zero.mpr h2⟩

/-- C3 (amended): a zero-length segment (`p0 = p1`) with any style, any seed
and any `n ≥ 2` returns `n` copies of `p0`; the `_unit` guard keeps the
normal well-defined (no division by zero) and nothing raises. -/
theorem stroke_line_degenerate_replicate (M : MathOps) (sd : SeedStreams)
    (st : StrokeStyle) (seed : ℤ) (n : ℕ) (hn : 2 ≤ n) (p : Point) :
    stroke_line M sd p p st seed n = some (List.replicate n p) := by
  rw [stroke_line_eq_map M sd p p st seed n hn]
  have hnorm : normal M p p = (0, 0) := by
    rw [normal, unit]
    simp [M.hypot_zero]
  refine congrArg some (List.eq_replicate_iff.mpr ⟨by simp, fun b hb => ?_⟩)
  rcases List.mem_map.mp hb with ⟨i, _, rfl⟩
  rw [hnorm, stroke_point]
  simp

/-- C3 counterexample: with `n = 1` the Python kernel raises
`ZeroDivisionError` at `t = i / (n - 1)` (modelled `none`) even when
`p0 = p1`, so the claim's "every n" fails. -/
theorem stroke_line_degenerate_n1_counterexample :
    stroke_line mathEx sdEx (1, 2) (1, 2) data_style 5 1 ≠
      some (List.replicate 1 ((1 : ℚ), (2 : ℚ))) := by
  rw [stroke_line_one_eq_none]
  exact fun h => Option.noConfusion h

theorem stroke_line_degenerate_replicate_witness :
    2 ≤ 2 ∧ stroke_line mathEx sdEx (1, 2) (1, 2) data_style 5 2 =
      some (List.replicate 2 ((1 : ℚ), (2 : ℚ))) :=
  ⟨by norm_num,
    stroke_line_degenerate_replicate mathEx sdEx data_style 5 2 (by norm_num)
      (1, 2)⟩

/-- C4: for `taper > 0` the perpendicular offset the kernel applies at the
parametric endpoints `t = 0` and `t = 1` is exactly zero — the first emitted
point is exactly `p0` and the last is exactly `p1`; for `taper ≤ 0` the taper
factor is identically 1, so the offset is unattenuated. -/
theorem taper_boundary (M : MathOps) (sd : SeedStreams) (p0 p1 : Point)
    (st : StrokeStyle) (seed : ℤ) (n : ℕ) (hn : 2 ≤ n) :
    (0 < st.taper →
      ∃ pts, stroke_line M sd p0 p1 st seed n = some pts ∧
        pts[0]? = some p0 ∧ pts[n - 1]? = some p1) ∧
    (st.taper ≤ 0 → ∀ t, taper_k t st.taper = 1) := by
  constructor
  · intro ht
    refine ⟨_, stroke_line_eq_map M sd p0 p1 st seed n hn, ?_, ?_⟩
    · rw [List.getElem?_map, List.getElem?_range (by omega : 0 < n),
        Option.map_some']
      exact congrArg some (stroke_point_zero M (sd seed) 0 p0 p1 st _ _ n ht)
    · rw [List.getElem?_map, List.getElem?_range (by omega : n - 1 < n),
        Option.map_some']
      exact congrArg some (stroke_point_last M (sd seed) 0 p0 p1 st _ _ n hn ht)
  · intro ht t
    rw [taper_k, if_pos ht]

theorem taper_boundary_witness :
    2 ≤ 2 ∧ 0 < data_style.taper ∧
    (∃ pts, stroke_line mathEx sdEx (0, 0) (3, 4) data_style 9 2 = some pts ∧
      pts[0]? = some ((0 : ℚ), (0 : ℚ)) ∧ pts[2 - 1]? = some ((3 : ℚ), (4 : ℚ))) :=
  ⟨by norm_num, by norm_num [data_style],
    (taper_boundary mathEx sdEx (0, 0) (3, 4) data_style 9 2 (by norm_num)).1
      (by norm_num [data_style])⟩

/-- C5: a polyline over `k ≥ 2` points emits exactly `k - 1` strokes, the
`i`-th being the kernel run on the consecutive pair `(points[i], points[i+1])`
with seed `base + i·97`; over fewer than 2 points it emits nothing and
returns without error. -/
theorem stroke_polyline_segments (M : MathOps) (sd : SeedStreams)
    (points : List Point) (st : StrokeStyle) (seed : ℤ) (nps : ℕ) :
    (2 ≤ points.length →
      (stroke_polyline M sd points st seed nps).length = points.length - 1 ∧
      ∀ i, i < points.length - 1 →
        (stroke_polyline M sd points st seed nps)[i]? =
          some (stroke_line M sd (points.getD i (0, 0))
            (points.getD (i + 1) (0, 0)) st (seed + (i : ℤ) * 97) nps)) ∧
    (points.length < 2 → stroke_polyline M sd points st seed nps = []) := by
  constructor
  · intro h
    rw [stroke_polyline, if_neg (not_lt.mpr h)]
    refine ⟨by simp, fun i hi => ?_⟩
    rw [List.getElem?_map, List.getElem?_range hi, Option.map_some']
  · intro h
    rw [stroke_polyline, if_pos h]

theorem stroke_polyline_segments_witness :
    2 ≤ ([((0 : ℚ), (0 : ℚ)), (1, 0), (1, 1)] : List Point).length ∧
    (stroke_polyline mathEx sdEx [(0, 0), (1, 0), (1, 1)] styleC1 4 12).length
      = 2 :=
  ⟨by norm_num,
    ((stroke_polyline_segments mathEx sdEx [(0, 0), (1, 0), (1, 1)] styleC1 4
      12).1 (by norm_num)).1⟩

theorem stroke_line_dashed_eq (M : MathOps) (sd : SeedStreams) (p0 p1 : Point)
    (st : StrokeStyle) (seed : ℤ) (n : ℕ) (dash_base gap_base : ℚ)
    (hn : 2 ≤ n) :
    stroke_line_dashed M sd p0 p1 st seed n dash_base gap_base =
      some ⟨dash_base * (85/100 + (115/100 - 85/100) * sd seed 0),
        gap_base * (85/100 + (120/100 - 85/100) * sd seed 1),
        (List.range n).map (stroke_point M (sd seed) 2 p0 p1 st
          (normal M p0 p1).1 (normal M p0 p1).2 n),
        0 + (dash_base * (85/100 + (115/100 - 85/100) * sd seed 0) +
          gap_base * (85/100 + (120/100 - 85/100) * sd seed 1) - 0) *
            sd seed (2 + 2 * n)⟩ := by
  have hq := cast_sub_one_ne_zero hn
  have hne : ¬ ((List.range n).map (stroke_point M (sd seed) 2 p0 p1 st
      (normal M p0 p1).1 (normal M p0 p1).2 n)).isEmpty = true := by
    simp [List.isEmpty_iff, List.range_eq_nil]
    omega
  simp only [stroke_line_dashed,
    stroke_samples_eq_map M (sd seed) 2 p0 p1 st _ _ n hq]
  simp [hne, Rng.uniform]

/-- C7: the dashed kernel draws the dash length as `dash_base · U(0.85, 1.15)`
(stream position 0), the gap as `gap_base · U(0.85, 1.20)` (position 1) and
the dash-phase offset as `U(0, dash + gap)` (position `2 + 2n`), all from the
one generator seeded for the call — so two calls whose identical seed
resolves to the same stream get identical dash, gap and offset. -/
theorem stroke_line_dashed_draws (M : MathOps) (sd1 sd2 : SeedStreams)
    (p0 p1 : Point) (st : StrokeStyle) (seed : ℤ) (n : ℕ)
    (dash_base gap_base : ℚ) (hsd : sd1 seed = sd2 seed) (hn : 2 ≤ n) :
    stroke_line_dashed M sd1 p0 p1 st seed n dash_base gap_base =
      stroke_line_dashed M sd2 p0 p1 st seed n dash_base gap_base ∧
    ∃ d, stroke_line_dashed M sd1 p0 p1 st seed n dash_base gap_base = some d ∧
      d.dash = dash_base * (85/100 + (115/100 - 85/100) * sd1 seed 0) ∧
      d.gap = gap_base * (85/100 + (120/100 - 85/100) * sd1 seed 1) ∧
      d.dashoffset = 0 + (d.dash + d.gap - 0) * sd1 seed (2 + 2 * n) := by
  refine ⟨?_, ?_⟩
  · rw [stroke_line_dashed_eq M sd1 p0 p1 st seed n dash_base gap_base hn,
      stroke_line_dashed_eq M sd2 p0 p1 st seed n dash_base gap_base hn, hsd]
  · exact ⟨_, stroke_line_dashed_eq M sd1 p0 p1 st seed n dash_base gap_base hn,
      rfl, rfl, rfl⟩

theorem stroke_line_dashed_draws_witness :
    stroke_line_dashed mathEx sdEx (0, 0) (0, 1) styleC1 0 2 10 12 =
      stroke_line_dashed mathEx sdEx (0, 0) (0, 1) styleC1 0 2 10 12 ∧
    ∃ d, stroke_line_dashed mathEx sdEx (0, 0) (0, 1) styleC1 0 2 10 12 =
        some d ∧
      d.dash = 10 * (85/100 + (115/100 - 85/100) * sdEx 0 0) ∧
      d.gap = 12 * (85/100 + (120/100 - 85/100) * sdEx 0 1) ∧
      d.dashoffset = 0 + (d.dash + d.gap - 0) * sdEx 0 (2 + 2 * 2) :=
  stroke_line_dashed_draws mathEx sdEx sdEx (0, 0) (0, 1) styleC1 0 2 10 12
    rfl (by norm_num)

/-- C1 (code bug): the claim — one `(phase, a2)` pair per stroke — fails on
the code, which calls `_smooth_offset` inside the sampling loop and therefore
draws a fresh pair from the stream at every sample index.  At a concrete
stream whose draws differ across positions, the kernel's output differs from
the single-pair rule the claim (and the code's own docstring) states. -/
theorem stroke_line_redraws_pair_each_sample :
    stroke_line mathEx sdEx (0, 0) (0, 1) styleC1 0 2 ≠
      some (spec_single_pair_points mathEx (sdEx 0) (0, 0) (0, 1) styleC1 2) := by
  have hL : stroke_line mathEx sdEx (0, 0) (0, 1) styleC1 0 2 =
      some [(0, 0), (-(4179/625 : ℚ), 1)] := by
    rw [stroke_line_eq_map mathEx sdEx (0, 0) (0, 1) styleC1 0 2 (by norm_num)]
    norm_num [List.range_succ, stroke_point, smooth_offset, Rng.uniform,
      normal, unit, taper_k, mathEx, sdEx, styleC1]
  have hR : spec_single_pair_points mathEx (sdEx 0) (0, 0) (0, 1) styleC1 2 =
      [(0, 0), (-(126/25 : ℚ), 1)] := by
    norm_num [spec_single_pair_points, List.range_succ, normal, unit, taper_k,
      mathEx, sdEx, styleC1]
  rw [hL, hR]
  intro h
  norm_num at h

theorem draw_axes_eq (M : MathOps) (sd : SeedStreams) (box : PlotBox)
    (st : StrokeStyle) (seed : ℤ) (ticks : ℕ) (arrows : Bool)
    (hx : box.xmax - box.xmin ≠ 0) (hy : box.ymax - box.ymin ≠ 0) :
    draw_axes M sd box st seed ticks arrows = some
      ⟨stroke_line M sd (box.xyVal box.xmin box.ymin)
          (box.xyVal box.xmax box.ymin) st (seed + 1) 90,
        stroke_line M sd (box.xyVal box.xmin box.ymin)
          (box.xyVal box.xmin box.ymax) st (seed + 2) 90,
        (if arrows then arrow_head_gesture M sd (box.xyVal box.xmax box.ymin)
          (1, 0) st (seed + 3) 14 30 else []),
        (if arrows then arrow_head_gesture M sd (box.xyVal box.xmin box.ymax)
          (0, -1) st (seed + 4) 14 30 else []),
        (if 0 < ticks then ticks_on_axis M sd (box.xyVal box.xmin box.ymin)
          (box.xyVal box.xmax box.ymin)
          ((List.range' 1 (ticks - 1)).map (fun i : ℕ => (i : ℚ) / (ticks : ℚ)))
          20 st (seed + 10) else []),
        (if 0 < ticks then ticks_on_axis M sd (box.xyVal box.xmin box.ymin)
          (box.xyVal box.xmin box.ymax)
          ((List.range' 1 (ticks - 1)).map (fun i : ℕ => (i : ℚ) / (ticks : ℚ)))
          20 st (seed + 20) else [])⟩ := by
  have hno : ∀ x y : ℚ, box.xy x y = some (box.xyVal x y) := fun x y => by
    rw [PlotBox.xy, if_neg (by tauto)]
  simp only [draw_axes, hno]
  split_ifs <;> rfl

theorem ticks_on_axis_length (M : MathOps) (sd : SeedStreams) (p0 p1 : Point)
    (ts : List ℚ) (len : ℚ) (st : StrokeStyle) (s : ℤ) :
    (ticks_on_axis M sd p0 p1 ts len st s).length = ts.length := by
  rw [ticks_on_axis, List.length_map, List.enum_length]

theorem ticks_on_axis_getElem (M : MathOps) (sd : SeedStreams) (p0 p1 : Point)
    (ticks : ℕ) (len : ℚ) (st : StrokeStyle) (s : ℤ) (j : ℕ)
    (hj : j < ticks - 1) :
    (ticks_on_axis M sd p0 p1 ((List.range' 1 (ticks - 1)).map
        (fun i : ℕ => (i : ℚ) / (ticks : ℚ))) len st s)[j]? =
      some (tick_stroke M sd p0 p1 (((j : ℚ) + 1) / (ticks : ℚ)) len st
        (s + (j : ℤ) * 31)) := by
  have hcast : ((1 + 1 * j : ℕ) : ℚ) = (j : ℚ) + 1 := by push_cast; ring
  rw [ticks_on_axis, List.getElem?_map, List.getElem?_enum, List.getElem?_map,
    List.getElem?_range' 1 1 hj, Option.map_some', Option.map_some',
    Option.map_some', hcast]

/-- C9: on a non-degenerate box, `draw_axes` with `ticks ≥ 1` puts
`ticks - 1` tick strokes on each axis, the `j`-th (0-based) a perpendicular
tick stroke at parametric fraction `(j+1)/ticks` — strictly inside `(0, 1)`,
so never at an endpoint — seeded `seed+10 + j·31` on the x-axis and
`seed+20 + j·31` on the y-axis; with `ticks = 0` no tick is drawn. -/
theorem draw_axes_tick_fractions (M : MathOps) (sd : SeedStreams)
    (box : PlotBox) (st : StrokeStyle) (seed : ℤ) (ticks : ℕ) (arrows : Bool)
    (hx : box.xmax - box.xmin ≠ 0) (hy : box.ymax - box.ymin ≠ 0) :
    ∃ out, draw_axes M sd box st seed ticks arrows = some out ∧
      (1 ≤ ticks →
        out.xTicks.length = ticks - 1 ∧ out.yTicks.length = ticks - 1 ∧
        ∀ j, j < ticks - 1 →
          0 < ((j : ℚ) + 1) / (ticks : ℚ) ∧ ((j : ℚ) + 1) / (ticks : ℚ) < 1 ∧
          out.xTicks[j]? = some (tick_stroke M sd
            (box.xyVal box.xmin box.ymin) (box.xyVal box.xmax box.ymin)
            (((j : ℚ) + 1) / (ticks : ℚ)) 20 st (seed + 10 + (j : ℤ) * 31)) ∧
          out.yTicks[j]? = some (tick_stroke M sd
            (box.xyVal box.xmin box.ymin) (box.xyVal box.xmin box.ymax)
            (((j : ℚ) + 1) / (ticks : ℚ)) 20 st (seed + 20 + (j : ℤ) * 31))) ∧
      (ticks = 0 → out.xTicks = [] ∧ out.yTicks = []) := by
  refine ⟨_, draw_axes_eq M sd box st seed ticks arrows hx hy, ?_, ?_⟩
  · intro ht
    have hpos : 0 < ticks := ht
    simp only [if_pos hpos]
    refine ⟨by rw [ticks_on_axis_length, List.length_map, List.length_range'],
      by rw [ticks_on_axis_length, List.length_map, List.length_range'],
      fun j hj => ?_⟩
    have hjq : ((j : ℚ) + 1) < (ticks : ℚ) := by
      have h1 : j + 1 < ticks := by omega
      exact_mod_cast h1
    have htq : (0 : ℚ) < (ticks : ℚ) := by exact_mod_cast hpos
    exact ⟨div_pos (by positivity) htq, (div_lt_one htq).mpr hjq,
      ticks_on_axis_getElem M sd _ _ ticks 20 st (seed + 10) j hj,
      ticks_on_axis_getElem M sd _ _ ticks 20 st (seed + 20) j hj⟩
  · intro h0
    subst h0
    exact ⟨by simp, by simp⟩

theorem draw_axes_tick_fractions_witness :
    BOXg.xmax - BOXg.xmin ≠ 0 ∧ BOXg.ymax - BOXg.ymin ≠ 0 ∧
    ∃ out, draw_axes mathEx sdEx BOXg styleC1 1 6 true = some out ∧
      (1 ≤ 6 →
        out.xTicks.length = 6 - 1 ∧ out.yTicks.length = 6 - 1 ∧
        ∀ j : ℕ, j < 6 - 1 →
          0 < ((j : ℚ) + 1) / ((6 : ℕ) : ℚ) ∧
          ((j : ℚ) + 1) / ((6 : ℕ) : ℚ) < 1 ∧
          out.xTicks[j]? = some (tick_stroke mathEx sdEx
            (BOXg.xyVal BOXg.xmin BOXg.ymin) (BOXg.xyVal BOXg.xmax BOXg.ymin)
            (((j : ℚ) + 1) / ((6 : ℕ) : ℚ)) 20 styleC1 (1 + 10 + (j : ℤ) * 31)) ∧
          out.yTicks[j]? = some (tick_stroke mathEx sdEx
            (BOXg.xyVal BOXg.xmin BOXg.ymin) (BOXg.xyVal BOXg.xmin BOXg.ymax)
            (((j : ℚ) + 1) / ((6 : ℕ) : ℚ)) 20 styleC1 (1 + 20 + (j : ℤ) * 31))) ∧
      (6 = 0 → out.xTicks = [] ∧ out.yTicks = []) :=
  ⟨by norm_num [BOXg], by norm_num [BOXg],
    draw_axes_tick_fractions mathEx sdEx BOXg styleC1 1 6 true
      (by norm_num [BOXg]) (by norm_num [BOXg])⟩

theorem sample_func_eq_map (b : PlotBox) (f : ℚ → ℚ) (n : ℕ)
    (hx : b.xmax - b.xmin ≠ 0) (hy : b.ymax - b.ymin ≠ 0)
    (hq : ((n : ℚ) - 1) ≠ 0) :
    sample_func b f n = some ((List.range n).map (sample_point b f n)) := by
  rw [sample_func]
  apply mapM_eq_map_of_some
  intro i _
  simp only [if_neg hq, PlotBox.xy, sample_point]
  rw [if_neg (by tauto)]

/-- C8: the gallery parabola scenario — `f(x) = 0.35(x-1.6)² - 1.3` sampled
at `n = 110` over the `[-1.2, 4.8] × [-2.6, 6.4]` window mapped into the
660×660 device box at offset `(120, 120)`, drawn as a corner-preserving
polyline with seed 100 and 12 samples per segment — yields exactly 109
strokes of 12 points each, and the first stroke's first device point is
exactly (the rational model needs no tolerance) the box image of
`(xmin, f(xmin))`. -/
theorem gallery_parabola_scenario (M : MathOps) (sd : SeedStreams) :
    ∃ pts, sample_func BOXg fParabola 110 = some pts ∧
      pts.length = 110 ∧
      (draw_curve M sd pts data_style 100 12).length = 109 ∧
      (∀ s ∈ draw_curve M sd pts data_style 100 12,
        ∃ l, s = some l ∧ l.length = 12) ∧
      ∃ l0, (draw_curve M sd pts data_style 100 12)[0]? = some (some l0) ∧
        l0[0]? = BOXg.xy (-(12/10)) (fParabola (-(12/10))) := by
  have hgx : BOXg.xmax - BOXg.xmin ≠ 0 := by norm_num [BOXg]
  have hgy : BOXg.ymax - BOXg.ymin ≠ 0 := by norm_num [BOXg]
  have hq : (((110 : ℕ) : ℚ) - 1) ≠ 0 := by norm_num
  have htp : 0 < data_style.taper := by norm_num [data_style]
  refine ⟨_, sample_func_eq_map BOXg fParabola 110 hgx hgy hq,
    by simp, ?_, ?_, ?_⟩
  · rw [draw_curve, stroke_polyline, if_neg (by simp)]
    simp
  · rw [draw_curve, stroke_polyline, if_neg (by simp)]
    intro s hs
    rcases List.mem_map.mp hs with ⟨i, _, rfl⟩
    exact ⟨_, stroke_line_eq_map M sd _ _ data_style _ 12 (by norm_num),
      by simp⟩
  · rw [draw_curve, stroke_polyline, if_neg (by simp)]
    rw [List.getElem?_map, List.getElem?_range (by simp), Option.map_some']
    refine ⟨_, congrArg some (stroke_line_eq_map M sd _ _ data_style _ 12
      (by norm_num)), ?_⟩
    rw [List.getElem?_map, List.getElem?_range (by norm_num : 0 < 12),
      Option.map_some', stroke_point_zero M _ _ _ _ data_style _ _ 12 htp]
    have hgetD : ((List.range 110).map (sample_point BOXg fParabola 110)).getD
        0 (0, 0) = sample_point BOXg fParabola 110 0 := by
      rw [List.getD_eq_getElem?_getD, List.getElem?_map,
        List.getElem?_range (by norm_num : 0 < 110), Option.map_some']
      rfl
    have hx0 : BOXg.xmin + (BOXg.xmax - BOXg.xmin) *
        (((0 : ℕ) : ℚ) / (((110 : ℕ) : ℚ) - 1)) = -(12/10) := by
      norm_num [BOXg]
    rw [hgetD, sample_point]
    simp only [hx0]
    rw [PlotBox.xy, if_neg (by tauto)]

end Linestyle
